import Mathlib

/-!
Verification of the community chunking / indexing / question-answering
pipeline (chunker.py, indexer.py, qa.py).

The Python source is shallowly embedded: every community record is a value
of `CommunityRecord` below, where an `Option` field set to `none` models a
key absent from the JSON mapping, and a sub-structure whose fields are all
absent models the empty mapping (the chunkers only ever read the keys
modelled here).  Numbers interpolated through Python format specifiers are
modelled as exact rationals (`Rat`) or integers; the renderings below
reproduce the format specifiers used by the source (`:,`, `:.1f`, `:+.1f`,
`:,.0f`), with round-half-to-even rounding as in CPython.
-/

/-- Round half to even (the rounding used by CPython float formatting),
as a function on exact rationals. -/
def rhe (q : Rat) : Int :=
  let f := q.floor
  let r := q - (f : Rat)
  if r < 1/2 then f
  else if 1/2 < r then f + 1
  else if f % 2 = 0 then f else f + 1

/-- Insert a thousands separator after every group of three digits.  The
input is the digit list in reverse (least significant first). -/
def commaFold : List Char → List Char
  | a :: b :: c :: d :: rest => a :: b :: c :: ',' :: commaFold (d :: rest)
  | l => l

/-- Decimal rendering of a natural number with thousands separators,
as produced by the Python format specifier `:,`. -/
def natComma (n : Nat) : String :=
  ⟨(commaFold (Nat.toDigits 10 n).reverse).reverse⟩

/-- The `:,` rendering of an integer. -/
def intComma (n : Int) : String :=
  (if n < 0 then "-" else "") ++ natComma n.natAbs

/-- Rendering of `x.get(key, "N/A")` interpolated through `:,`.  When the
key is present the number is grouped; the absent case renders the sentinel
(the source would apply `:,` to the string sentinel there). -/
def optIntComma : Option Int → String
  | some n => intComma n
  | none => "N/A"

/-- Rendering of `x.get(key, "N/A")` interpolated with no format spec,
for integer-valued keys. -/
def optIntStr : Option Int → String
  | some n => toString n
  | none => "N/A"

/-- Fixed-point rendering with one digit after the decimal point, as
produced by the Python format specifier `:.1f`. -/
def fmtFixed1 (v : Rat) : String :=
  let t := (rhe (|v| * 10)).toNat
  (if v < 0 then "-" else "") ++ toString (t / 10) ++ "." ++ toString (t % 10)

/-- Drop trailing zero digits, keeping at least one digit. -/
def trimZeroChars (l : List Char) : List Char :=
  let r := l.reverse.dropWhile (fun c => c == '0')
  if r.isEmpty then ['0'] else r.reverse

/-- Rendering of a bare interpolated numeric value.  Integral values print
with no decimal point, as in the source; non-integral values print a
decimal expansion (the source prints the Python float repr; no verified
claim depends on the exact digits of a non-integral bare interpolation). -/
def ratStr (q : Rat) : String :=
  if q.den = 1 then toString q.num
  else
    let s := if q < 0 then "-" else ""
    let a := |q|
    let ip := a.floor.toNat
    let fr := a - (ip : Rat)
    let frDigits := toString ((fr * 1000000).floor.toNat + 1000000)
    s ++ toString ip ++ "." ++ String.mk (trimZeroChars (frDigits.data.drop 1))

/-- Rendering of `x.get(key, "N/A")` interpolated with no format spec,
for numeric keys that may be fractional. -/
def optNum : Option Rat → String
  | some q => ratStr q
  | none => "N/A"

/-- Python `str.title` on the character list: a letter is uppercased when
it does not follow a letter and lowercased otherwise. -/
def titleAux : Bool → List Char → List Char
  | _, [] => []
  | prevAlpha, c :: cs =>
      let c2 := if c.isAlpha then (if prevAlpha then c.toLower else c.toUpper) else c
      c2 :: titleAux c.isAlpha cs

/-- Computes `ptype.replace("_", " ").title()` from the housing chunker. -/
def titleKey (s : String) : String :=
  ⟨titleAux false (s.data.map (fun c => if c = '_' then ' ' else c))⟩

/-- Python `str.rstrip(", ")`: strip every trailing comma or space. -/
def rstripCommaSpace (s : String) : String :=
  ⟨(s.data.reverse.dropWhile (fun c => c == ',' || c == ' ')).reverse⟩

/-- Python `", ".join(...)` and friends. -/
def joinSep : String → List String → String
  | _, [] => ""
  | _, [a] => a
  | sep, a :: b :: rest => a ++ sep ++ joinSep sep (b :: rest)

/-- Python `str.upper` (ASCII view, as in the slugs of this corpus). -/
def pyUpper (s : String) : String := ⟨s.data.map Char.toUpper⟩

/-- Python `str.strip()` with no argument: trim surrounding whitespace. -/
def pyStrip (s : String) : String :=
  ⟨((s.data.dropWhile Char.isWhitespace).reverse.dropWhile Char.isWhitespace).reverse⟩

/-- Implements `String.endsWith`, computed on the character lists. -/
def pyEnds (s suf : String) : Bool := suf.data.isSuffixOf s.data

/-- Implements `String.startsWith`, computed on the character lists. -/
def pyStarts (s pre : String) : Bool := pre.data.isPrefixOf s.data

/-- Implements `pathlib.Path(p).stem`: the final path component without its last
suffix; a name whose only dot is the leading one has no suffix. -/
def pathStem (p : String) : String :=
  let r := p.data.reverse
  let after := r.takeWhile (fun c => c != '.')
  if after.length == r.length then p
  else
    let before := r.drop (after.length + 1)
    if before.isEmpty then p else ⟨before.reverse⟩

/-- Embeds `format_currency` from chunker.py: `None` renders as `"N/A"`, any
number as `f"${value:,.0f}"`. -/
def format_currency (value : Option Rat) : String :=
  match value with
  | none => "N/A"
  | some v => "$" ++ (if v < 0 then "-" else "") ++ natComma ((rhe |v|).toNat)

/-- Embeds `format_pct` from chunker.py: `None` renders as `"N/A"`, a value `>= 0`
as `f"{value:+.1f}%"`, a negative value as `f"{value:.1f}%"`. -/
def format_pct (value : Option Rat) : String :=
  match value with
  | none => "N/A"
  | some v => if 0 ≤ v then "+" ++ fmtFixed1 v ++ "%" else fmtFixed1 v ++ "%"

/-! ## Data model

One structure per JSON subtree read by the chunkers.  `Option`/empty-list
fields model absent keys; a sub-structure value whose fields are all
absent models the empty mapping `\x7b\x7d`, so the `isEmptyB` predicates below
compute the Python falsity of the fetched mapping. -/

structure Hero where
  population : Option Int := none
  safety_percentile : Option Int := none
  avg_value : Option Rat := none
deriving DecidableEq

structure Crime where
  count : Option Int := none
  per_1000 : Option Rat := none
  city_avg_per_1000 : Option Rat := none
  yoy_pct : Option Rat := none
deriving DecidableEq

def Crime.isEmptyB (c : Crime) : Bool :=
  c.count.isNone && c.per_1000.isNone && c.city_avg_per_1000.isNone && c.yoy_pct.isNone

structure Disorder where
  count : Option Int := none
  per_1000 : Option Rat := none
  city_avg_per_1000 : Option Rat := none
deriving DecidableEq

def Disorder.isEmptyB (d : Disorder) : Bool :=
  d.count.isNone && d.per_1000.isNone && d.city_avg_per_1000.isNone

structure BreakPart where
  pct : Option Rat := none
deriving DecidableEq

structure Breakdown where
  property : Option BreakPart := none
  violent : Option BreakPart := none
deriving DecidableEq

def Breakdown.isEmptyB (b : Breakdown) : Bool :=
  b.property.isNone && b.violent.isNone

structure TrendPt where
  quarter : String := ""
  crime : Int := 0
deriving DecidableEq

structure Safety where
  percentile : Option Int := none
  percentile_label : Option String := none
  crime : Option Crime := none
  disorder : Option Disorder := none
  breakdown : Option Breakdown := none
  trend : List TrendPt := []
deriving DecidableEq

def Safety.isEmptyB (s : Safety) : Bool :=
  s.percentile.isNone && s.percentile_label.isNone && s.crime.isNone
    && s.disorder.isNone && s.breakdown.isNone && s.trend.isEmpty

structure TypeInfo where
  count : Option Int := none
  value : Rat := 0
  value_yoy : Option Rat := none
deriving DecidableEq

structure Benchmarks where
  date : Option String := none
  detached : Option Rat := none
  semi_detached : Option Rat := none
  row : Option Rat := none
  apartment : Option Rat := none
deriving DecidableEq

/-- Models `benchmarks.get(ptype)` for the four fixed property-type keys. -/
def Benchmarks.get (b : Benchmarks) (ptype : String) : Option Rat :=
  if ptype = "detached" then b.detached
  else if ptype = "semi_detached" then b.semi_detached
  else if ptype = "row" then b.row
  else if ptype = "apartment" then b.apartment
  else none

structure Housing where
  assessed_value : Option Rat := none
  value_vs_city : Option Rat := none
  property_count : Option Int := none
  assessed_by_type : List (String × TypeInfo) := []
  district_benchmarks : Option Benchmarks := none
  district : Option String := none
deriving DecidableEq

def Housing.isEmptyB (h : Housing) : Bool :=
  h.assessed_value.isNone && h.value_vs_city.isNone && h.property_count.isNone
    && h.assessed_by_type.isEmpty && h.district_benchmarks.isNone && h.district.isNone

structure Cat311 where
  category : String := ""
  count : Int := 0
  yoy_pct : Option Rat := none
deriving DecidableEq

structure SR311 where
  total : Option Int := none
  top_categories : List Cat311 := []
deriving DecidableEq

def SR311.isEmptyB (s : SR311) : Bool :=
  s.total.isNone && s.top_categories.isEmpty

structure School where
  name : String := ""
  board : String := ""
  level : String := ""
  rating : Option Rat := none
deriving DecidableEq

structure Schools where
  count : Option Int := none
  avg_rating : Option Rat := none
  rated_count : Option Int := none
  list : List School := []
deriving DecidableEq

def Schools.isEmptyB (s : Schools) : Bool :=
  s.count.isNone && s.avg_rating.isNone && s.rated_count.isNone && s.list.isEmpty

structure Route where
  route : String := ""
  destination : String := ""
deriving DecidableEq

structure Transit where
  stop_count : Option Int := none
  stops_per_1000 : Option Rat := none
  routes : List Route := []
deriving DecidableEq

def Transit.isEmptyB (t : Transit) : Bool :=
  t.stop_count.isNone && t.stops_per_1000.isNone && t.routes.isEmpty

structure Demographics where
  median_age : Option Rat := none
  avg_income : Option Rat := none
  owner_pct : Option Rat := none
  renter_pct : Option Rat := none
  visible_minority_pct : Option Rat := none
deriving DecidableEq

def Demographics.isEmptyB (d : Demographics) : Bool :=
  d.median_age.isNone && d.avg_income.isNone && d.owner_pct.isNone
    && d.renter_pct.isNone && d.visible_minority_pct.isNone

structure TopType where
  type : String := ""
  count : Int := 0
deriving DecidableEq

structure Licenses where
  active_total : Option Int := none
  city_avg_active : Option Rat := none
  top_types : List TopType := []
deriving DecidableEq

def Licenses.isEmptyB (l : Licenses) : Bool :=
  l.active_total.isNone && l.city_avg_active.isNone && l.top_types.isEmpty

structure Permits where
  total_12mo : Option Int := none
  total_yoy_pct : Option Rat := none
  units_created_12mo : Option Int := none
  total_value_12mo : Option Rat := none
deriving DecidableEq

def Permits.isEmptyB (p : Permits) : Bool :=
  p.total_12mo.isNone && p.total_yoy_pct.isNone && p.units_created_12mo.isNone
    && p.total_value_12mo.isNone

structure BusinessDev where
  business_licenses : Option Licenses := none
  building_permits : Option Permits := none
deriving DecidableEq

def BusinessDev.isEmptyB (b : BusinessDev) : Bool :=
  b.business_licenses.isNone && b.building_permits.isNone

structure BusinessChar where
  character : Option String := none
  total_businesses : Option Int := none
deriving DecidableEq

def BusinessChar.isEmptyB (b : BusinessChar) : Bool :=
  b.character.isNone && b.total_businesses.isNone

structure Amenities where
  grocery : List String := []
  restaurant_count : Option Int := none
  cafe_count : Option Int := none
  pharmacy : List String := []
  childcare : List String := []
deriving DecidableEq

def Amenities.isEmptyB (a : Amenities) : Bool :=
  a.grocery.isEmpty && a.restaurant_count.isNone && a.cafe_count.isNone
    && a.pharmacy.isEmpty && a.childcare.isEmpty

structure Named where
  name : String := ""
deriving DecidableEq

/-- A community record: the nested mapping read by the chunkers. -/
structure CommunityRecord where
  slug : Option String := none
  name : Option String := none
  description : Option String := none
  sector : Option String := none
  creb_district : Option String := none
  distance_to_downtown_km : Option Rat := none
  hero : Option Hero := none
  safety : Option Safety := none
  housing : Option Housing := none
  service_requests_311 : Option SR311 := none
  schools : Option Schools := none
  transit : Option Transit := none
  demographics : Option Demographics := none
  business_development : Option BusinessDev := none
  business_character : Option BusinessChar := none
  amenities : Option Amenities := none
  parks : List Named := []
  landmarks : List Named := []
  recreation : List Named := []
deriving DecidableEq

/-- A visualization descriptor attached to a chunk (`viz` entries).  The
source key `type` keeps its name; `section` below is renamed to
`sectionLabel` because `section` is a Lean keyword. -/
structure Viz where
  type : String
  component : String
  data_keys : List String
  description : String
  series : List (String × String) := []
  x_axis : Option String := none
deriving DecidableEq

/-- A chunk, the unit of retrieval. -/
structure Chunk where
  id : String
  community : String
  sectionLabel : String
  url : String
  text : String
  viz : List Viz
deriving DecidableEq

def PULSE_BASE_URL : String := "https://calgarypulse.ca/communities"

/-! ## Section chunkers -/

/-- Embeds `chunk_hero` from chunker.py.  The source has no guard: it always
returns a chunk dictionary (the other eight chunkers may return `None`). -/
def chunk_hero (data : CommunityRecord) (slug name : String) : Chunk :=
  let hero := data.hero.getD {}
  let desc := data.description.getD ""
  let sector := data.sector.getD ""
  let district := data.creb_district.getD ""
  let distance := data.distance_to_downtown_km
  let text := name ++ " community overview. "
  let text := text ++ "Located in " ++ sector ++ " sector, CREB district: " ++ district ++ ". "
  let text := match distance with
    | some d => if d ≠ 0 then text ++ fmtFixed1 d ++ " km from downtown. " else text
    | none => text
  let text := match hero.population with
    | some p => if p ≠ 0 then text ++ "Population: " ++ intComma p ++ ". " else text
    | none => text
  let text := match hero.safety_percentile with
    | some sp => text ++ "Safety percentile: " ++ toString sp ++ "/100. "
    | none => text
  let text := match hero.avg_value with
    | some v => if v ≠ 0 then text ++ "Average assessed home value: " ++ format_currency (some v) ++ ". " else text
    | none => text
  let text := if desc ≠ "" then text ++ desc else text
  { id := slug ++ "-overview"
    community := slug
    sectionLabel := "overview"
    url := PULSE_BASE_URL ++ "/" ++ slug
    text := text
    viz := [
      { type := "stat-cards"
        component := "HeroCards"
        data_keys := ["hero.population", "hero.safety_percentile", "hero.avg_value", "housing.value_vs_city"]
        description := "Three stat cards: Population, Safety Score (color-coded), Assessed Value" }
    ] }

/-- Embeds `chunk_safety` from chunker.py. -/
def chunk_safety (data : CommunityRecord) (slug name : String) : Option Chunk :=
  let safety := data.safety.getD {}
  if safety.isEmptyB then none
  else
    let crime := safety.crime.getD {}
    let disorder := safety.disorder.getD {}
    let breakdown := safety.breakdown.getD {}
    let text := name ++ " safety and crime data. "
    let text := text ++ "Safety percentile: " ++ optIntStr safety.percentile ++ "/100 "
    let text := text ++ "(" ++ safety.percentile_label.getD "" ++ "). "
    let text :=
      if !crime.isEmptyB then
        let t := text ++ "Crime incidents (latest quarter): " ++ optIntComma crime.count ++ ", "
        let t := t ++ optNum crime.per_1000 ++ " per 1,000 residents "
        let t := t ++ "(city average: " ++ optNum crime.city_avg_per_1000 ++ "). "
        match crime.yoy_pct with
        | some y => t ++ "Year-over-year change: " ++ format_pct (some y) ++ ". "
        | none => t
      else text
    let text :=
      if !breakdown.isEmptyB then
        let prop := breakdown.property.getD {}
        let violent := breakdown.violent.getD {}
        if prop.pct.getD 0 ≠ 0 ∧ violent.pct.getD 0 ≠ 0 then
          text ++ "Breakdown: " ++ ratStr (prop.pct.getD 0) ++ "% property crime, "
            ++ ratStr (violent.pct.getD 0) ++ "% violent crime. "
        else text
      else text
    let text :=
      if !disorder.isEmptyB then
        let t := text ++ "Disorder calls: " ++ optIntComma disorder.count ++ ", "
        let t := t ++ optNum disorder.per_1000 ++ " per 1,000 "
        t ++ "(city average: " ++ optNum disorder.city_avg_per_1000 ++ "). "
      else text
    let trend := safety.trend
    let text := match trend with
      | t0 :: t1 :: rest =>
          let last := (t1 :: rest).getLast (List.cons_ne_nil t1 rest)
          text ++ "Crime trend: " ++ t0.quarter ++ " had " ++ toString t0.crime ++ " incidents, "
            ++ last.quarter ++ " had " ++ toString last.crime ++ " incidents. "
      | _ => text
    some
      { id := slug ++ "-safety"
        community := slug
        sectionLabel := "safety"
        url := PULSE_BASE_URL ++ "/" ++ slug ++ "#safety"
        text := text
        viz := [
          { type := "stat-cards"
            component := "SafetyStats"
            data_keys := ["safety.crime.count", "safety.crime.yoy_pct", "safety.crime.per_1000",
                          "safety.crime.city_avg_per_1000", "safety.disorder.count",
                          "safety.disorder.per_1000", "safety.disorder.city_avg_per_1000"]
            description := "Two metric cards: Crime incidents with YoY and per-1000 rate vs city avg, Disorder calls with same" },
          { type := "line-chart"
            component := "CrimeTrendChart"
            data_keys := ["safety.trend"]
            description := "Dual-line chart showing crime and disorder trends over 8 quarters with linear regression trend line"
            series := [("crime", "Crime Incidents"), ("disorder", "Disorder Calls")]
            x_axis := some "quarter" },
          { type := "stat-cards"
            component := "CrimeBreakdown"
            data_keys := ["safety.breakdown.property", "safety.breakdown.violent"]
            description := "Two cards: Property crime vs Violent crime counts and percentages" },
          { type := "stat-grid"
            component := "DisorderBreakdown"
            data_keys := ["safety.disorder_breakdown"]
            description := "Grid of disorder categories (disturbances, suspicious, welfare, other) with counts and percentages" }
        ] }

/-- Embeds `chunk_housing` from chunker.py. -/
def chunk_housing (data : CommunityRecord) (slug name : String) : Option Chunk :=
  let housing := data.housing.getD {}
  if housing.isEmptyB then none
  else
    let text := name ++ " housing data. "
    let text := text ++ "Average assessed value: " ++ format_currency housing.assessed_value ++ ". "
    let text := match housing.value_vs_city with
      | some v => text ++ "Compared to city median: " ++ format_pct (some v) ++ ". "
      | none => text
    let text := text ++ "Total properties: " ++ optIntComma housing.property_count ++ ". "
    let by_type := housing.assessed_by_type
    let text := by_type.foldl (fun t pi =>
      let ptype := pi.1
      let info := pi.2
      if 0 < info.count.getD 0 then
        let t := t ++ titleKey ptype ++ ": " ++ format_currency (some info.value)
          ++ " avg (" ++ intComma (info.count.getD 0) ++ " properties"
        let t := match info.value_yoy with
          | some y => t ++ ", " ++ format_pct (some y) ++ " YoY"
          | none => t
        t ++ "). "
      else t) text
    let benchmarks := housing.district_benchmarks.getD {}
    let text :=
      if benchmarks.date.getD "" ≠ "" then
        let district := housing.district.getD ""
        let t := text ++ "District (" ++ district ++ ") benchmark prices as of "
          ++ benchmarks.date.getD "" ++ ": "
        ["detached", "semi_detached", "row", "apartment"].foldl (fun t ptype =>
          match benchmarks.get ptype with
          | some v => if v ≠ 0 then t ++ titleKey ptype ++ ": " ++ format_currency (some v) ++ ", " else t
          | none => t) t
      else text
    some
      { id := slug ++ "-housing"
        community := slug
        sectionLabel := "housing"
        url := PULSE_BASE_URL ++ "/" ++ slug ++ "#housing"
        text := text
        viz := [
          { type := "stat-cards"
            component := "HousingAssessments"
            data_keys := ["housing.assessed_value", "housing.value_vs_city", "housing.property_count"]
            description := "Summary card: average assessed value, comparison to city median, total properties" },
          { type := "stat-grid"
            component := "HousingByType"
            data_keys := ["housing.assessed_by_type"]
            description := "Grid of property types (Detached, Semi, Row, Apartment) each showing avg value, count, and YoY change" },
          { type := "stat-grid"
            component := "DistrictBenchmarks"
            data_keys := ["housing.district_benchmarks"]
            description := "District benchmark prices by property type with YoY changes" }
        ] }

/-- Embeds `chunk_311` from chunker.py. -/
def chunk_311 (data : CommunityRecord) (slug name : String) : Option Chunk :=
  let sr := data.service_requests_311.getD {}
  if sr.isEmptyB then none
  else
    let text := name ++ " 311 service requests. "
    let text := text ++ "Total requests (24 months): " ++ optIntComma sr.total ++ ". "
    let top := sr.top_categories
    let text :=
      if !top.isEmpty then
        let t := top.foldl (fun t cat =>
            t ++ cat.category ++ " (" ++ intComma cat.count ++ ", "
              ++ format_pct (some (cat.yoy_pct.getD 0)) ++ " YoY), ")
          (text ++ "Top categories: ")
        rstripCommaSpace t ++ ". "
      else text
    some
      { id := slug ++ "-311"
        community := slug
        sectionLabel := "311-service-requests"
        url := PULSE_BASE_URL ++ "/" ++ slug ++ "#311"
        text := text
        viz := [
          { type := "horizontal-bar"
            component := "ServiceRequests311Section"
            data_keys := ["service_requests_311.total", "service_requests_311.top_categories"]
            description := "Horizontal bar chart of top 5 request categories with counts and YoY change badges" },
          { type := "line-chart"
            component := "ServiceRequestsTrend"
            data_keys := ["service_requests_311.trend"]
            description := "24-month line chart of monthly request counts with linear regression trend line"
            series := [("count", "Monthly Requests")]
            x_axis := some "date" }
        ] }

/-- Embeds `chunk_schools` from chunker.py. -/
def chunk_schools (data : CommunityRecord) (slug name : String) : Option Chunk :=
  let schools := data.schools.getD {}
  if schools.isEmptyB || schools.count.getD 0 == 0 then none
  else
    let text := name ++ " schools. "
    let text := text ++ toString (schools.count.getD 0) ++ " schools in the community. "
    let text := match schools.avg_rating with
      | some r =>
          if r ≠ 0 then
            text ++ "Average Fraser Institute rating: " ++ ratStr r ++ "/10 "
              ++ "(" ++ toString (schools.rated_count.getD 0) ++ " rated). "
          else text
      | none => text
    let text := schools.list.foldl (fun t school =>
      let t := t ++ school.name ++ " (" ++ school.board ++ ", " ++ school.level
      let t := match school.rating with
        | some r => if r ≠ 0 then t ++ ", rating: " ++ ratStr r ++ "/10" else t
        | none => t
      t ++ "). ") text
    some
      { id := slug ++ "-schools"
        community := slug
        sectionLabel := "schools"
        url := PULSE_BASE_URL ++ "/" ++ slug ++ "#schools"
        text := text
        viz := [
          { type := "list"
            component := "SchoolList"
            data_keys := ["schools.list", "schools.count", "schools.avg_rating"]
            description := "Ordered list of schools with board, grade level, and Fraser Institute rating (0-10 scale)" }
        ] }

/-- Embeds `chunk_transit` from chunker.py. -/
def chunk_transit (data : CommunityRecord) (slug name : String) : Option Chunk :=
  let transit := data.transit.getD {}
  if transit.isEmptyB || transit.stop_count.getD 0 == 0 then none
  else
    let text := name ++ " transit. "
    let text := text ++ toString (transit.stop_count.getD 0) ++ " transit stops "
    let text := match transit.stops_per_1000 with
      | some v => if v ≠ 0 then text ++ "(" ++ ratStr v ++ " per 1,000 residents). " else text
      | none => text
    let routes := transit.routes
    let text :=
      if !routes.isEmpty then
        let t := routes.foldl (fun t r =>
            t ++ "Route " ++ r.route ++ " (" ++ r.destination ++ "), ")
          (text ++ "Key routes: ")
        rstripCommaSpace t ++ ". "
      else text
    some
      { id := slug ++ "-transit"
        community := slug
        sectionLabel := "transit"
        url := PULSE_BASE_URL ++ "/" ++ slug ++ "#transit"
        text := text
        viz := [
          { type := "stat-with-list"
            component := "TransitSection"
            data_keys := ["transit.stop_count", "transit.stops_per_1000", "transit.routes"]
            description := "Stop count metric card plus list of top 5 routes with destinations" }
        ] }

/-- Embeds `chunk_demographics` from chunker.py. -/
def chunk_demographics (data : CommunityRecord) (slug name : String) : Option Chunk :=
  let demo := data.demographics.getD {}
  if demo.isEmptyB then none
  else
    let text := name ++ " demographics (Census 2021). "
    let text := match demo.median_age with
      | some m => if m ≠ 0 then text ++ "Median age: " ++ ratStr m ++ ". " else text
      | none => text
    let text := match demo.avg_income with
      | some i => if i ≠ 0 then text ++ "Average income: " ++ format_currency (some i) ++ ". " else text
      | none => text
    let text := match demo.owner_pct with
      | some o =>
          text ++ "Homeowners: " ++ ratStr o ++ "%, Renters: " ++ optNum demo.renter_pct ++ "%. "
      | none => text
    let text := match demo.visible_minority_pct with
      | some v => text ++ "Visible minority: " ++ ratStr v ++ "%. "
      | none => text
    some
      { id := slug ++ "-demographics"
        community := slug
        sectionLabel := "demographics"
        url := PULSE_BASE_URL ++ "/" ++ slug ++ "#demographics"
        text := text
        viz := [
          { type := "stat-grid"
            component := "DemographicsSection"
            data_keys := ["demographics.owner_pct", "demographics.renter_pct",
                          "demographics.median_age", "demographics.avg_income",
                          "demographics.visible_minority_pct"]
            description := "5-column responsive stat grid: Owner %, Renter %, Median Age, Average Income, Visible Minority %" }
        ] }

/-- The business-licenses sentence block of `chunk_business` (the
`if licenses:` statement group of the source, including the
`rstrip(", ")` on the top-types list). -/
def businessLicText (licenses : Licenses) (text : String) : String :=
  if !licenses.isEmptyB then
    let t := text ++ "Active business licenses: " ++ optIntComma licenses.active_total ++ " "
    let t := t ++ "(city average: " ++ optNum licenses.city_avg_active ++ "). "
    let top := licenses.top_types
    if !top.isEmpty then
      let t2 := top.foldl (fun t tt =>
          t ++ tt.type ++ " (" ++ toString tt.count ++ "), ")
        (t ++ "Top types: ")
      rstripCommaSpace t2 ++ ". "
    else t
  else text

/-- Embeds `chunk_business` from chunker.py. -/
def chunk_business (data : CommunityRecord) (slug name : String) : Option Chunk :=
  let bd := data.business_development.getD {}
  let bc := data.business_character.getD {}
  if bd.isEmptyB && bc.isEmptyB then none
  else
    let text := name ++ " business and development. "
    let text :=
      if !bc.isEmptyB then
        let t := text ++ "Business character: " ++ bc.character.getD "N/A" ++ ". "
        t ++ "Total active businesses: " ++ optIntComma bc.total_businesses ++ ". "
      else text
    let text := businessLicText (bd.business_licenses.getD {}) text
    let permits := bd.building_permits.getD {}
    let text :=
      if !permits.isEmptyB then
        let t := text ++ "Building permits (12 months): " ++ optIntStr permits.total_12mo ++ " "
        let t := t ++ "(" ++ format_pct (some (permits.total_yoy_pct.getD 0)) ++ " YoY). "
        let t := match permits.units_created_12mo with
          | some u => if u ≠ 0 then t ++ "Units created: " ++ intComma u ++ ". " else t
          | none => t
        match permits.total_value_12mo with
        | some v => if v ≠ 0 then t ++ "Total permit value: " ++ format_currency (some v) ++ ". " else t
        | none => t
      else text
    some
      { id := slug ++ "-business"
        community := slug
        sectionLabel := "business-development"
        url := PULSE_BASE_URL ++ "/" ++ slug ++ "#business"
        text := text
        viz := [
          { type := "stat-cards"
            component := "BusinessDevelopmentSection"
            data_keys := ["business_development.business_licenses.active_total",
                          "business_development.business_licenses.city_avg_active",
                          "business_development.building_permits.total_12mo",
                          "business_development.building_permits.units_created_12mo",
                          "business_development.building_permits.total_value_12mo",
                          "business_character.character"]
            description := "Multi-card layout: business character label, license count vs city avg, permits count, units created, total investment value" },
          { type := "horizontal-bar"
            component := "BusinessDevelopmentSection"
            data_keys := ["business_development.business_licenses.top_types"]
            description := "Horizontal bar chart of top business license types with counts" }
        ] }

/-- The `if amenities:` statement group of `chunk_amenities`: grocery
list (truncated to five with a `+N more` suffix), restaurant and cafe
counts, pharmacy and childcare counts. -/
def amenitiesInner (amenities : Amenities) (text : String) : String :=
  let grocery := amenities.grocery
  let text :=
    if !grocery.isEmpty then
      let t := text ++ "Grocery stores: " ++ joinSep ", " (grocery.take 5)
      let t := if 5 < grocery.length then
          t ++ " (+" ++ toString (grocery.length - 5) ++ " more)"
        else t
      t ++ ". "
    else text
  let text := match amenities.restaurant_count with
    | some n => if n ≠ 0 then text ++ "Restaurants: " ++ toString n ++ ". " else text
    | none => text
  let text := match amenities.cafe_count with
    | some n => if n ≠ 0 then text ++ "Cafes: " ++ toString n ++ ". " else text
    | none => text
  let text :=
    if !amenities.pharmacy.isEmpty then
      text ++ "Pharmacies: " ++ toString amenities.pharmacy.length ++ ". "
    else text
  let text :=
    if !amenities.childcare.isEmpty then
      text ++ "Childcare: " ++ toString amenities.childcare.length ++ " centres. "
    else text
  text

/-- Embeds `chunk_amenities` from chunker.py. -/
def chunk_amenities (data : CommunityRecord) (slug name : String) : Option Chunk :=
  let amenities := data.amenities.getD {}
  let parks := data.parks
  let recreation := data.recreation
  let landmarks := data.landmarks
  if amenities.isEmptyB && parks.isEmpty && landmarks.isEmpty then none
  else
    let text := name ++ " amenities and lifestyle. "
    let text := if !amenities.isEmptyB then amenitiesInner amenities text else text
    let text :=
      if !parks.isEmpty then
        text ++ "Parks: " ++ joinSep ", " ((parks.take 3).map Named.name) ++ ". "
      else text
    let text :=
      if !landmarks.isEmpty then
        text ++ "Landmarks: " ++ joinSep ", " ((landmarks.take 5).map Named.name) ++ ". "
      else text
    let text :=
      if !recreation.isEmpty then
        text ++ "Recreation facilities: " ++ joinSep ", " ((recreation.take 3).map Named.name) ++ ". "
      else text
    some
      { id := slug ++ "-amenities"
        community := slug
        sectionLabel := "amenities"
        url := PULSE_BASE_URL ++ "/" ++ slug ++ "#amenities"
        text := text
        viz := [
          { type := "named-lists"
            component := "AmenitiesSection"
            data_keys := ["amenities.grocery", "amenities.pharmacy", "amenities.childcare",
                          "amenities.restaurant_count", "amenities.cafe_count"]
            description := "Named lists: grocery stores, pharmacies, childcare centres, plus restaurant and cafe counts" },
          { type := "named-lists"
            component := "CommunityHighlightsSection"
            data_keys := ["landmarks", "parks", "recreation", "natural_areas"]
            description := "Named lists: landmarks (by type), parks, recreation facilities, natural areas" }
        ] }

/-! ## Community and corpus chunkers -/

/-- A record file on disk: its file name and the parsed JSON content
(`json.load` of a well-formed record file). -/
structure SrcFile where
  path : String
  data : CommunityRecord
deriving DecidableEq

/-- Computes `data.get("slug", filepath.stem)` from `chunk_community`. -/
def effSlug (f : SrcFile) : String := f.data.slug.getD (pathStem f.path)

/-- Computes `data.get("name", slug.upper())` from `chunk_community`. -/
def effName (f : SrcFile) : String := f.data.name.getD (pyUpper (effSlug f))

/-- Embeds `chunk_community` from chunker.py: apply the nine section chunkers in
their fixed order and keep the truthy results (every produced chunk
dictionary is non-empty, hence truthy, so the `if chunk:` filter keeps
exactly the non-`None` results). -/
def chunk_community (f : SrcFile) : List Chunk :=
  let data := f.data
  let slug := effSlug f
  let name := effName f
  ([some (chunk_hero data slug name),
    chunk_safety data slug name,
    chunk_housing data slug name,
    chunk_311 data slug name,
    chunk_schools data slug name,
    chunk_transit data slug name,
    chunk_demographics data slug name,
    chunk_business data slug name,
    chunk_amenities data slug name] : List (Option Chunk)).reduceOption

/-- Comparison used by `sorted(data_dir.glob("*.json"))`: paths compare
lexicographically. -/
def pathLe (a b : SrcFile) : Prop := a.path ≤ b.path

instance : DecidableRel pathLe := fun a b =>
  (inferInstance : Decidable (a.path ≤ b.path))

/-- Embeds `chunk_all` from chunker.py: glob the `.json` files of the directory,
sort, skip files whose stem starts with an underscore, and concatenate the
community chunks of the rest. -/
def chunk_all (dir : List SrcFile) : List Chunk :=
  let files := (dir.filter (fun f => pyEnds f.path ".json")).insertionSort pathLe
  files.foldl (fun acc f =>
    if pyStarts (pathStem f.path) "_" then acc
    else acc ++ chunk_community f) []

/-- The files `chunk_all` processes, in order: the `.json` files of the
directory, sorted, minus those whose stem starts with an underscore. -/
def processedFiles (dir : List SrcFile) : List SrcFile :=
  ((dir.filter (fun f => pyEnds f.path ".json")).insertionSort pathLe).filter
    (fun f => !(pyStarts (pathStem f.path) "_"))

/-! ## Indexer (indexer.py)

The vector store is modelled as the list of its entries; `index_chunks`
returns the updated store state (the source returns the number of ids and
mutates the collection in place). -/

/-- One persisted entry of the collection: the chunk id, its document
text, and the metadata fields written by the indexer (`community`,
`section`, `url`, and the serialized `viz`). -/
structure StoreEntry where
  id : String
  community : String
  sectionLabel : String
  url : String
  viz : String
  document : String
deriving DecidableEq

/-- Models `json.dumps` of the visualization descriptors.  The serialized
text is carried along as inert metadata; no verified claim reads it back. -/
def vizJson (v : List Viz) : String :=
  joinSep "|" (v.map (fun d => d.type ++ ":" ++ d.component))

/-- The entry the indexer writes for a chunk (id, document, metadata). -/
def toEntry (c : Chunk) : StoreEntry :=
  { id := c.id
    community := c.community
    sectionLabel := c.sectionLabel
    url := c.url
    viz := vizJson c.viz
    document := c.text }

/-- Models `collection.get(where community) / collection.delete(ids)`: remove
every entry whose `community` metadata equals the given slug (deleting an
empty id list is skipped by the source and is a no-op here). -/
def deleteCommunity (store : List StoreEntry) (comm : String) : List StoreEntry :=
  store.filter (fun e => e.community != comm)

/-- Models `collection.upsert` for a single entry: replace the entry with the
same id when one exists, otherwise append. -/
def upsertOne (store : List StoreEntry) (e : StoreEntry) : List StoreEntry :=
  if store.any (fun o => o.id == e.id) then
    store.map (fun o => if o.id == e.id then e else o)
  else store ++ [e]

/-- Embeds `index_chunks` from indexer.py: with `replace`, first delete every
stored entry of each community occurring among the chunks, then upsert the
chunks keyed by id. -/
def index_chunks (store : List StoreEntry) (chunks : List Chunk) (replace : Bool) :
    List StoreEntry :=
  let store := if replace then
      ((chunks.map Chunk.community).dedup).foldl deleteCommunity store
    else store
  (chunks.map toEntry).foldl upsertOne store

/-! ## Answer generator adapter (qa.py) -/

/-- Outcome of `subprocess.run(["claude", "-p", prompt], ...)`: the process
completed with an exit code, stdout and stderr; or the binary was missing
(`FileNotFoundError`); or the timeout expired (`subprocess.TimeoutExpired`). -/
inductive ProcOutcome where
  | completed (returncode : Int) (stdout stderr : String)
  | fileNotFound
  | timedOut
deriving DecidableEq

/-- The `timeout=60` argument of the subprocess call in `ask_claude`. -/
def claudeTimeoutSeconds : Nat := 60

/-- Embeds `ask_claude` from qa.py, as a total function of the process outcome:
every branch returns a string, no branch raises. -/
def ask_claude (outcome : ProcOutcome) : String :=
  match outcome with
  | .completed returncode stdout stderr =>
      if returncode = 0 then pyStrip stdout
      else "Error: " ++ pyStrip stderr
  | .fileNotFound => "Error: \x27claude\x27 command not found. Install Claude Code CLI."
  | .timedOut => "Error: Claude timed out after " ++ toString claudeTimeoutSeconds ++ " seconds."

/-- The suffixes the chunkers append after `{slug}-` to build chunk ids,
in chunker order. -/
def idSuffixes : List String :=
  ["overview", "safety", "housing", "311", "schools", "transit",
   "demographics", "business", "amenities"]

/-- Proposition that `t` starts with the prefix `p`. -/
def hasPre (p t : String) : Prop := ∃ u, t = p ++ u

/-! ## Concrete inputs used by the verification -/

def emptyCommunityRecord : CommunityRecord := {}

def recHeroSafetyPct : CommunityRecord := { hero := some { safety_percentile := some 90 } }

def rec311Only : CommunityRecord := { service_requests_311 := some { total := some 5 } }

def recHousingBench : CommunityRecord :=
  { housing := some
      { assessed_value := some 500000
        property_count := some 1000
        district_benchmarks := some { date := some "2024-01", detached := some 700000 } } }

/-- A record that declares a slug but no display name. -/
def recSlugOnly : CommunityRecord := { slug := some "sunalta" }

/-- Comparator built from the observed id scheme: the id suffix used for a
section label (two sections abbreviate their label in the id). -/
def sectionIdSuffix (l : String) : String :=
  if l = "311-service-requests" then "311"
  else if l = "business-development" then "business"
  else l

/-- C1 counterexample input: a store entry of another community sharing an
id with a new chunk (used for C6). -/
def otherEntry : StoreEntry :=
  { id := "x-overview", community := "other", sectionLabel := "overview"
    url := "u", viz := "[]", document := "old" }

def newXChunk : Chunk :=
  { id := "x-overview", community := "x", sectionLabel := "overview"
    url := "u2", text := "new", viz := [] }

def c6wStore : List StoreEntry :=
  [{ id := "beltline-overview", community := "beltline", sectionLabel := "overview"
     url := "u1", viz := "[]", document := "b-old" },
   { id := "other-overview", community := "other", sectionLabel := "overview"
     url := "u2", viz := "[]", document := "o-old" }]

def c6wChunks : List Chunk :=
  [{ id := "beltline-safety", community := "beltline", sectionLabel := "safety"
     url := "u3", text := "b-new", viz := [] }]

/-- Comparator following the spec wording for C2: the overview text with
the safety-percentile clause omitted (identical to the text built by
`chunk_hero` except that no safety-percentile sentence is inserted). -/
def overviewTextNoSafetyClause (data : CommunityRecord) (name : String) : String :=
  let hero := data.hero.getD {}
  let desc := data.description.getD ""
  let sector := data.sector.getD ""
  let district := data.creb_district.getD ""
  let distance := data.distance_to_downtown_km
  let text := name ++ " community overview. "
  let text := text ++ "Located in " ++ sector ++ " sector, CREB district: " ++ district ++ ". "
  let text := match distance with
    | some d => if d ≠ 0 then text ++ fmtFixed1 d ++ " km from downtown. " else text
    | none => text
  let text := match hero.population with
    | some p => if p ≠ 0 then text ++ "Population: " ++ intComma p ++ ". " else text
    | none => text
  let text := match hero.avg_value with
    | some v => if v ≠ 0 then text ++ "Average assessed home value: " ++ format_currency (some v) ++ ". " else text
    | none => text
  let text := if desc ≠ "" then text ++ desc else text
  text

set_option maxRecDepth 100000
set_option maxHeartbeats 1000000

/-! ## General lemmas about strings and chunk ids -/

theorem strDataAppend (a b : String) : (a ++ b).data = a.data ++ b.data := by
  cases a; cases b; rfl

theorem strAppendCancelLeft {s a b : String} (h : s ++ a = s ++ b) : a = b := by
  apply String.ext
  have hd : s.data ++ a.data = s.data ++ b.data := by
    rw [← strDataAppend, ← strDataAppend, h]
  exact List.append_cancel_left hd

theorem strAppendCancelRight {s a b : String} (h : a ++ s = b ++ s) : a = b := by
  apply String.ext
  have hd : a.data ++ s.data = b.data ++ s.data := by
    rw [← strDataAppend, ← strDataAppend, h]
  exact List.append_cancel_right hd

/-- None of the nine id suffixes, preceded by the separator, is a suffix
of another one preceded by the separator. -/
theorem idSuffixesSeparated :
    ∀ x ∈ idSuffixes, ∀ y ∈ idSuffixes,
      x = y ∨ (¬ ('-' :: x.data <:+ '-' :: y.data) ∧ ¬ ('-' :: y.data <:+ '-' :: x.data)) := by
  with_unfolding_all decide

/-- Appending a separator and one of a separated family of suffixes is
injective in both parts. -/
theorem appendSepInj {x y : String}
    (hxy : x = y ∨ (¬ ('-' :: x.data <:+ '-' :: y.data) ∧ ¬ ('-' :: y.data <:+ '-' :: x.data)))
    {s₁ s₂ : String} (h : s₁ ++ "-" ++ x = s₂ ++ "-" ++ y) :
    s₁ = s₂ ∧ x = y := by
  have hd : s₁.data ++ ('-' :: x.data) = s₂.data ++ ('-' :: y.data) := by
    have := congrArg String.data h
    simpa [strDataAppend] using this
  have hsx : ('-' :: x.data) <:+ s₂.data ++ ('-' :: y.data) := ⟨s₁.data, hd⟩
  have hsy : ('-' :: y.data) <:+ s₂.data ++ ('-' :: y.data) := ⟨s₂.data, rfl⟩
  rcases hxy with rfl | ⟨hnxy, hnyx⟩
  · refine ⟨?_, rfl⟩
    apply String.ext
    exact List.append_cancel_right hd
  · rcases List.suffix_or_suffix_of_suffix hsx hsy with hs | hs
    · exact absurd hs hnxy
    · exact absurd hs hnyx

theorem strAppendAssoc (a b c : String) : (a ++ b) ++ c = a ++ (b ++ c) := by
  apply String.ext
  simp [strDataAppend, List.append_assoc]

theorem hasPre_base (p u : String) : hasPre p (p ++ u) := ⟨u, rfl⟩

theorem hasPre_append {p a : String} (x : String) (h : hasPre p a) : hasPre p (a ++ x) := by
  obtain ⟨u, rfl⟩ := h
  exact ⟨u ++ x, strAppendAssoc p u x⟩

theorem hasPre_weaken {p q t : String} (h : hasPre (p ++ q) t) : hasPre p t := by
  obtain ⟨u, rfl⟩ := h
  exact ⟨q ++ u, strAppendAssoc p q u⟩

theorem hasPre_foldl {α : Type} {p : String} {step : String → α → String}
    (hstep : ∀ t x, hasPre p t → hasPre p (step t x)) :
    ∀ (l : List α) (a : String), hasPre p a → hasPre p (l.foldl step a)
  | [], _, h => h
  | x :: xs, a, h => hasPre_foldl hstep xs (step a x) (hstep a x h)

theorem dropWhileAppendOfExists {p : Char → Bool} :
    ∀ {x : List Char} (y : List Char), (∃ c ∈ x, p c = false) →
      List.dropWhile p (x ++ y) = List.dropWhile p x ++ y := by
  intro x
  induction x with
  | nil => intro y h; simp at h
  | cons c xs ih =>
      intro y h
      by_cases hc : p c = true
      · have hex : ∃ d ∈ xs, p d = false := by
          rcases h with ⟨d, hd, hdp⟩
          rcases List.mem_cons.mp hd with rfl | hmem
          · exact absurd hc (by simp [hdp])
          · exact ⟨d, hmem, hdp⟩
        simp only [List.cons_append, List.dropWhile_cons, hc, if_true]
        exact ih y hex
      · simp only [List.cons_append, List.dropWhile_cons, hc]
        simp

theorem rstripAppendKeep (a b : String) (hb : ∃ c ∈ b.data, (c == ',' || c == ' ') = false) :
    rstripCommaSpace (a ++ b) = a ++ rstripCommaSpace b := by
  apply String.ext
  show (rstripCommaSpace (a ++ b)).data = (a ++ rstripCommaSpace b).data
  simp only [rstripCommaSpace, strDataAppend]
  rw [List.reverse_append]
  rw [dropWhileAppendOfExists a.data.reverse (by
    rcases hb with ⟨c, hc, hcp⟩
    exact ⟨c, List.mem_reverse.mpr hc, hcp⟩)]
  rw [List.reverse_append, List.reverse_reverse]

theorem strAppendEmpty (s : String) : s ++ "" = s := by
  apply String.ext
  simp [strDataAppend]

theorem hasPre_refl (p : String) : hasPre p p := ⟨"", (strAppendEmpty p).symm⟩

/-- Python `rstrip(", ")` keeps a prefix `p` when the text continues after `p`
with a block `hl` containing a character the strip cannot remove. -/
theorem hasPre_rstrip (hl : String) {p t : String}
    (hch : ∃ c ∈ hl.data, (c == ',' || c == ' ') = false)
    (h : hasPre (p ++ hl) t) : hasPre p (rstripCommaSpace t) := by
  obtain ⟨v, rfl⟩ := h
  rw [strAppendAssoc]
  rw [rstripAppendKeep p (hl ++ v) (by
    rcases hch with ⟨c, hc, hcp⟩
    refine ⟨c, ?_, hcp⟩
    rw [strDataAppend]
    exact List.mem_append_left _ hc)]
  exact ⟨_, rfl⟩

/-! ## Shape of each chunker output: community, section, id and the
leading name of the text.  One lemma per section chunker. -/

theorem chunk_hero_fields (d : CommunityRecord) (s n : String) :
    (chunk_hero d s n).community = s ∧ (chunk_hero d s n).sectionLabel = "overview"
      ∧ (chunk_hero d s n).id = s ++ "-" ++ "overview" ∧ hasPre n (chunk_hero d s n).text := by
  refine ⟨rfl, rfl, ?_, ?_⟩
  · show s ++ "-overview" = s ++ "-" ++ "overview"
    rw [strAppendAssoc]
    exact congrArg (fun z => s ++ z)
      (show ("-overview" : String) = "-" ++ "overview" by with_unfolding_all rfl)
  · show hasPre n _
    simp only [chunk_hero]
    repeat' split
    all_goals
      repeat' (first
        | (simp only [strAppendAssoc]; exact ⟨_, rfl⟩)
        | exact hasPre_refl _
        | apply hasPre_append
        | (refine hasPre_foldl (fun t x ht => ?_) _ _ ?_
           · repeat' split
             all_goals ((repeat apply hasPre_append); exact ht))
        | exact hasPre_refl _)

theorem chunk_safety_fields {d : CommunityRecord} {s n : String} {c : Chunk}
    (h : chunk_safety d s n = some c) :
    c.community = s ∧ c.sectionLabel = "safety" ∧ c.id = s ++ "-" ++ "safety"
      ∧ hasPre n c.text := by
  simp only [chunk_safety] at h
  split at h
  · exact absurd h (by simp)
  · injection h with h
    subst h
    refine ⟨rfl, rfl, ?_, ?_⟩
    · show s ++ "-safety" = s ++ "-" ++ "safety"
      rw [strAppendAssoc]
      exact congrArg (fun z => s ++ z)
        (show ("-safety" : String) = "-" ++ "safety" by with_unfolding_all rfl)
    · show hasPre n _
      repeat' split
      all_goals
        repeat' (first
          | (simp only [strAppendAssoc]; exact ⟨_, rfl⟩)
          | exact hasPre_refl _
          | apply hasPre_append
          | (refine hasPre_foldl (fun t x ht => ?_) _ _ ?_
             · repeat' split
               all_goals ((repeat apply hasPre_append); exact ht)))

theorem chunk_housing_fields {d : CommunityRecord} {s n : String} {c : Chunk}
    (h : chunk_housing d s n = some c) :
    c.community = s ∧ c.sectionLabel = "housing" ∧ c.id = s ++ "-" ++ "housing"
      ∧ hasPre n c.text := by
  simp only [chunk_housing] at h
  split at h
  · exact absurd h (by simp)
  · injection h with h
    subst h
    refine ⟨rfl, rfl, ?_, ?_⟩
    · show s ++ "-housing" = s ++ "-" ++ "housing"
      rw [strAppendAssoc]
      exact congrArg (fun z => s ++ z)
        (show ("-housing" : String) = "-" ++ "housing" by with_unfolding_all rfl)
    · show hasPre n _
      repeat' split
      all_goals
        repeat' (first
          | (simp only [strAppendAssoc]; exact ⟨_, rfl⟩)
          | exact hasPre_refl _
          | apply hasPre_append
          | (refine hasPre_foldl (fun t x ht => ?_) _ _ ?_
             · repeat' split
               all_goals ((repeat apply hasPre_append); exact ht)))

theorem chunk_311_fields {d : CommunityRecord} {s n : String} {c : Chunk}
    (h : chunk_311 d s n = some c) :
    c.community = s ∧ c.sectionLabel = "311-service-requests" ∧ c.id = s ++ "-" ++ "311"
      ∧ hasPre n c.text := by
  simp only [chunk_311] at h
  split at h
  · exact absurd h (by simp)
  · injection h with h
    subst h
    refine ⟨rfl, rfl, ?_, ?_⟩
    · show s ++ "-311" = s ++ "-" ++ "311"
      rw [strAppendAssoc]
      exact congrArg (fun z => s ++ z)
        (show ("-311" : String) = "-" ++ "311" by with_unfolding_all rfl)
    · show hasPre n _
      repeat' split
      all_goals
        repeat' (first
          | (simp only [strAppendAssoc]; exact ⟨_, rfl⟩)
          | exact hasPre_refl _
          | apply hasPre_append
          | (refine hasPre_foldl (fun t x ht => ?_) _ _ ?_
             · repeat' split
               all_goals ((repeat apply hasPre_append); exact ht))
          | apply hasPre_rstrip " 311 service requests. " (by with_unfolding_all decide))

theorem chunk_schools_fields {d : CommunityRecord} {s n : String} {c : Chunk}
    (h : chunk_schools d s n = some c) :
    c.community = s ∧ c.sectionLabel = "schools" ∧ c.id = s ++ "-" ++ "schools"
      ∧ hasPre n c.text := by
  simp only [chunk_schools] at h
  split at h
  · exact absurd h (by simp)
  · injection h with h
    subst h
    refine ⟨rfl, rfl, ?_, ?_⟩
    · show s ++ "-schools" = s ++ "-" ++ "schools"
      rw [strAppendAssoc]
      exact congrArg (fun z => s ++ z)
        (show ("-schools" : String) = "-" ++ "schools" by with_unfolding_all rfl)
    · show hasPre n _
      repeat' split
      all_goals
        repeat' (first
          | (simp only [strAppendAssoc]; exact ⟨_, rfl⟩)
          | exact hasPre_refl _
          | apply hasPre_append
          | (refine hasPre_foldl (fun t x ht => ?_) _ _ ?_
             · repeat' split
               all_goals ((repeat apply hasPre_append); exact ht)))

theorem chunk_transit_fields {d : CommunityRecord} {s n : String} {c : Chunk}
    (h : chunk_transit d s n = some c) :
    c.community = s ∧ c.sectionLabel = "transit" ∧ c.id = s ++ "-" ++ "transit"
      ∧ hasPre n c.text := by
  simp only [chunk_transit] at h
  split at h
  · exact absurd h (by simp)
  · injection h with h
    subst h
    refine ⟨rfl, rfl, ?_, ?_⟩
    · show s ++ "-transit" = s ++ "-" ++ "transit"
      rw [strAppendAssoc]
      exact congrArg (fun z => s ++ z)
        (show ("-transit" : String) = "-" ++ "transit" by with_unfolding_all rfl)
    · show hasPre n _
      repeat' split
      all_goals
        repeat' (first
          | (simp only [strAppendAssoc]; exact ⟨_, rfl⟩)
          | exact hasPre_refl _
          | apply hasPre_append
          | (refine hasPre_foldl (fun t x ht => ?_) _ _ ?_
             · repeat' split
               all_goals ((repeat apply hasPre_append); exact ht))
          | apply hasPre_rstrip " transit. " (by with_unfolding_all decide))

theorem chunk_demographics_fields {d : CommunityRecord} {s n : String} {c : Chunk}
    (h : chunk_demographics d s n = some c) :
    c.community = s ∧ c.sectionLabel = "demographics" ∧ c.id = s ++ "-" ++ "demographics"
      ∧ hasPre n c.text := by
  simp only [chunk_demographics] at h
  split at h
  · exact absurd h (by simp)
  · injection h with h
    subst h
    refine ⟨rfl, rfl, ?_, ?_⟩
    · show s ++ "-demographics" = s ++ "-" ++ "demographics"
      rw [strAppendAssoc]
      exact congrArg (fun z => s ++ z)
        (show ("-demographics" : String) = "-" ++ "demographics" by with_unfolding_all rfl)
    · show hasPre n _
      repeat' split
      all_goals (simp only [strAppendAssoc]; exact ⟨_, rfl⟩)

theorem foldlPreEx {α : Type} {step : String → α → String}
    (hstep : ∀ t x, ∃ w, step t x = t ++ w) :
    ∀ (l : List α) (a : String), ∃ w, l.foldl step a = a ++ w
  | [], a => ⟨"", (strAppendEmpty a).symm⟩
  | x :: xs, a => by
      obtain ⟨w1, hw1⟩ := hstep a x
      obtain ⟨w2, hw2⟩ := foldlPreEx hstep xs (step a x)
      exact ⟨w1 ++ w2, by rw [List.foldl_cons, hw2, hw1, strAppendAssoc]⟩

theorem hasPre_rstripEx {p t : String}
    (h : ∃ u, t = p ++ u ∧ ∃ c ∈ u.data, (c == ',' || c == ' ') = false) :
    hasPre p (rstripCommaSpace t) := by
  obtain ⟨u, rfl, hch⟩ := h
  rw [rstripAppendKeep p u hch]
  exact ⟨_, rfl⟩

theorem amenitiesInner_pre (a : Amenities) {p t : String} (ht : hasPre p t) :
    hasPre p (amenitiesInner a t) := by
  obtain ⟨u, rfl⟩ := ht
  simp only [amenitiesInner]
  repeat' split
  all_goals ((repeat apply hasPre_append); first | exact ⟨u, rfl⟩ | exact hasPre_refl _)

theorem businessLicText_pre (l : Licenses) {p t : String} (ht : hasPre p t) :
    hasPre p (businessLicText l t) := by
  obtain ⟨u, rfl⟩ := ht
  simp only [businessLicText]
  repeat' split
  all_goals (first
    | ((repeat apply hasPre_append); first | exact ⟨u, rfl⟩ | exact hasPre_refl _)
    | (apply hasPre_append
       apply hasPre_rstripEx
       have hst : ∀ (t : String) (x : TopType),
           ∃ w, t ++ x.type ++ " (" ++ toString x.count ++ "), " = t ++ w := by
         intro t x
         simp only [strAppendAssoc]
         exact ⟨_, rfl⟩
       obtain ⟨w, hw⟩ := foldlPreEx hst l.top_types _
       rw [hw]
       simp only [strAppendAssoc]
       refine ⟨_, rfl, ?_⟩
       simp only [strDataAppend]
       refine ⟨'A', ?_, by decide⟩
       apply List.mem_append_right
       apply List.mem_append_left
       with_unfolding_all decide))

theorem chunk_business_fields {d : CommunityRecord} {s n : String} {c : Chunk}
    (h : chunk_business d s n = some c) :
    c.community = s ∧ c.sectionLabel = "business-development" ∧ c.id = s ++ "-" ++ "business"
      ∧ hasPre n c.text := by
  simp only [chunk_business] at h
  split at h
  · exact absurd h (by simp)
  · injection h with h
    subst h
    refine ⟨rfl, rfl, ?_, ?_⟩
    · show s ++ "-business" = s ++ "-" ++ "business"
      rw [strAppendAssoc]
      exact congrArg (fun z => s ++ z)
        (show ("-business" : String) = "-" ++ "business" by with_unfolding_all rfl)
    · show hasPre n _
      repeat' split
      all_goals
        ((repeat apply hasPre_append)
         first
           | exact hasPre_refl _
           | (apply businessLicText_pre
              (repeat apply hasPre_append)
              exact hasPre_refl _))

theorem chunk_amenities_fields {d : CommunityRecord} {s n : String} {c : Chunk}
    (h : chunk_amenities d s n = some c) :
    c.community = s ∧ c.sectionLabel = "amenities" ∧ c.id = s ++ "-" ++ "amenities"
      ∧ hasPre n c.text := by
  simp only [chunk_amenities] at h
  split at h
  · exact absurd h (by simp)
  · injection h with h
    subst h
    refine ⟨rfl, rfl, ?_, ?_⟩
    · show s ++ "-amenities" = s ++ "-" ++ "amenities"
      rw [strAppendAssoc]
      exact congrArg (fun z => s ++ z)
        (show ("-amenities" : String) = "-" ++ "amenities" by with_unfolding_all rfl)
    · show hasPre n _
      repeat' split
      all_goals
        ((repeat apply hasPre_append)
         first
           | exact hasPre_refl _
           | (apply amenitiesInner_pre
              (repeat apply hasPre_append)
              exact hasPre_refl _))

/-- Every chunk of a community carries the effective slug as community, an
id built from the slug and one of the nine id suffixes, and a text that
starts with the effective display name. -/
theorem mem_chunk_community {f : SrcFile} {c : Chunk} (h : c ∈ chunk_community f) :
    c.community = effSlug f ∧ (∃ x, x ∈ idSuffixes ∧ c.id = effSlug f ++ "-" ++ x)
      ∧ hasPre (effName f) c.text := by
  simp only [chunk_community] at h
  rw [List.reduceOption_mem_iff] at h
  simp only [List.mem_cons, List.not_mem_nil, or_false] at h
  rcases h with h|h|h|h|h|h|h|h|h
  · injection h with h
    subst h
    have hf := chunk_hero_fields f.data (effSlug f) (effName f)
    exact ⟨hf.1, ⟨"overview", by with_unfolding_all decide, hf.2.2.1⟩, hf.2.2.2⟩
  · have hf := chunk_safety_fields h.symm
    exact ⟨hf.1, ⟨"safety", by with_unfolding_all decide, hf.2.2.1⟩, hf.2.2.2⟩
  · have hf := chunk_housing_fields h.symm
    exact ⟨hf.1, ⟨"housing", by with_unfolding_all decide, hf.2.2.1⟩, hf.2.2.2⟩
  · have hf := chunk_311_fields h.symm
    exact ⟨hf.1, ⟨"311", by with_unfolding_all decide, hf.2.2.1⟩, hf.2.2.2⟩
  · have hf := chunk_schools_fields h.symm
    exact ⟨hf.1, ⟨"schools", by with_unfolding_all decide, hf.2.2.1⟩, hf.2.2.2⟩
  · have hf := chunk_transit_fields h.symm
    exact ⟨hf.1, ⟨"transit", by with_unfolding_all decide, hf.2.2.1⟩, hf.2.2.2⟩
  · have hf := chunk_demographics_fields h.symm
    exact ⟨hf.1, ⟨"demographics", by with_unfolding_all decide, hf.2.2.1⟩, hf.2.2.2⟩
  · have hf := chunk_business_fields h.symm
    exact ⟨hf.1, ⟨"business", by with_unfolding_all decide, hf.2.2.1⟩, hf.2.2.2⟩
  · have hf := chunk_amenities_fields h.symm
    exact ⟨hf.1, ⟨"amenities", by with_unfolding_all decide, hf.2.2.1⟩, hf.2.2.2⟩

theorem reduceOptionIdsNodup :
    ∀ {opts : List (Option Chunk)} {keys : List String},
      List.Forall₂ (fun o k => ∀ c, o = some c → c.id = k) opts keys → keys.Nodup →
      (((opts.reduceOption).map Chunk.id).Nodup
        ∧ ∀ i ∈ (opts.reduceOption).map Chunk.id, i ∈ keys) := by
  intro opts keys hf
  induction hf with
  | nil => intro _; simp
  | cons hok htail ih =>
      rename_i o k os ks
      intro hnd
      have hnd' := (List.nodup_cons.mp hnd).2
      have hk := (List.nodup_cons.mp hnd).1
      obtain ⟨ihn, ihm⟩ := ih hnd'
      cases o with
      | none =>
          rw [List.reduceOption_cons_of_none]
          exact ⟨ihn, fun i hi => List.mem_cons_of_mem _ (ihm i hi)⟩
      | some c =>
          rw [List.reduceOption_cons_of_some]
          have hid : c.id = k := hok c rfl
          constructor
          · rw [List.map_cons, List.nodup_cons]
            exact ⟨fun hcon => hk (hid ▸ ihm _ hcon), ihn⟩
          · intro i hi
            rw [List.map_cons, List.mem_cons] at hi
            rcases hi with rfl | hi
            · exact hid ▸ List.mem_cons_self _ _
            · exact List.mem_cons_of_mem _ (ihm i hi)

/-- Within one community the nine chunkers emit pairwise distinct ids. -/
theorem chunk_community_ids_nodup (f : SrcFile) :
    ((chunk_community f).map Chunk.id).Nodup := by
  have hinj : Function.Injective (fun x => effSlug f ++ "-" ++ x) := by
    intro a b hab
    exact strAppendCancelLeft hab
  have hkeys : (idSuffixes.map (fun x => effSlug f ++ "-" ++ x)).Nodup :=
    List.Nodup.map hinj (by with_unfolding_all decide)
  refine (reduceOptionIdsNodup ?_ hkeys).1
  simp only [chunk_community, idSuffixes, List.map_cons, List.map_nil]
  refine List.Forall₂.cons ?_ (List.Forall₂.cons ?_ (List.Forall₂.cons ?_
    (List.Forall₂.cons ?_ (List.Forall₂.cons ?_ (List.Forall₂.cons ?_
    (List.Forall₂.cons ?_ (List.Forall₂.cons ?_ (List.Forall₂.cons ?_ List.Forall₂.nil))))))))
  · intro c hc
    injection hc with hc
    subst hc
    exact (chunk_hero_fields f.data (effSlug f) (effName f)).2.2.1
  · exact fun c hc => (chunk_safety_fields hc).2.2.1
  · exact fun c hc => (chunk_housing_fields hc).2.2.1
  · exact fun c hc => (chunk_311_fields hc).2.2.1
  · exact fun c hc => (chunk_schools_fields hc).2.2.1
  · exact fun c hc => (chunk_transit_fields hc).2.2.1
  · exact fun c hc => (chunk_demographics_fields hc).2.2.1
  · exact fun c hc => (chunk_business_fields hc).2.2.1
  · exact fun c hc => (chunk_amenities_fields hc).2.2.1

theorem foldlSkipAppend (g : SrcFile → List Chunk) (p : SrcFile → Bool) :
    ∀ (l : List SrcFile) (acc : List Chunk),
      l.foldl (fun acc f => if p f then acc else acc ++ g f) acc
        = acc ++ (l.filter (fun f => !p f)).flatMap g := by
  intro l
  induction l with
  | nil => intro acc; simp
  | cons f fs ih =>
      intro acc
      rw [List.foldl_cons]
      by_cases hp : p f = true
      · rw [if_pos hp, ih, List.filter_cons]
        simp [hp]
      · have hp' : p f = false := by simpa using hp
        rw [if_neg (by simp [hp']), ih, List.filter_cons]
        simp [hp', List.append_assoc]

/-- The corpus chunker processes exactly the eligible files, in sorted order,
concatenating the community chunks of each. -/
theorem chunk_all_eq (dir : List SrcFile) :
    chunk_all dir = (processedFiles dir).flatMap chunk_community := by
  unfold chunk_all processedFiles
  rw [foldlSkipAppend chunk_community (fun f => pyStarts (pathStem f.path) "_")]
  simp

/-- Corpus-level id distinctness, given pairwise distinct effective slugs
of the processed files. -/
theorem chunk_all_ids_nodup (dir : List SrcFile)
    (hslugs : ((processedFiles dir).map effSlug).Nodup) :
    ((chunk_all dir).map Chunk.id).Nodup := by
  rw [chunk_all_eq, List.map_flatMap, List.nodup_flatMap]
  constructor
  · intro f _
    exact chunk_community_ids_nodup f
  · have hpw : List.Pairwise (fun a b => effSlug a ≠ effSlug b) (processedFiles dir) :=
      List.pairwise_map.mp hslugs
    refine hpw.imp ?_
    intro f₁ f₂ hne i hi₁ hi₂
    simp only [List.mem_map] at hi₁ hi₂
    obtain ⟨c₁, hc₁m, hc₁⟩ := hi₁
    obtain ⟨c₂, hc₂m, hc₂⟩ := hi₂
    obtain ⟨-, ⟨x, hx, hidx⟩, -⟩ := mem_chunk_community hc₁m
    obtain ⟨-, ⟨y, hy, hidy⟩, -⟩ := mem_chunk_community hc₂m
    have heq : effSlug f₁ ++ "-" ++ x = effSlug f₂ ++ "-" ++ y := by
      rw [← hidx, ← hidy, hc₁, hc₂]
    exact hne (appendSepInj (idSuffixesSeparated x hx y hy) heq).1

/-- The overview chunk is always emitted, first. -/
theorem chunk_community_head (f : SrcFile) :
    ∃ rest, chunk_community f
        = chunk_hero f.data (effSlug f) (effName f) :: rest := by
  simp only [chunk_community, List.reduceOption_cons_of_some]
  exact ⟨_, rfl⟩

/-- Deleting a list of communities is filtering all of them out. -/
theorem foldlDeleteEq : ∀ (L : List String) (store : List StoreEntry),
    L.foldl deleteCommunity store = store.filter (fun e => !(L.contains e.community)) := by
  intro L
  induction L with
  | nil => intro store; simp
  | cons a L ih =>
      intro store
      rw [List.foldl_cons]
      show L.foldl deleteCommunity (deleteCommunity store a) = _
      rw [ih]
      unfold deleteCommunity
      rw [List.filter_filter]
      apply List.filter_congr
      intro e _
      rw [List.contains_cons, Bool.not_or]
      cases h1 : e.community == a <;> cases h2 : L.contains e.community <;>
        simp [bne, h1, h2]

/-- Upserting entries whose ids are fresh for the store, and pairwise
distinct, appends them. -/
theorem upsertAllNew : ∀ (entries store : List StoreEntry),
    (∀ en ∈ entries, ∀ o ∈ store, o.id ≠ en.id) → (entries.map StoreEntry.id).Nodup →
    entries.foldl upsertOne store = store ++ entries := by
  intro entries
  induction entries with
  | nil => intro store _ _; simp
  | cons e es ih =>
      intro store hdisj hnd
      rw [List.foldl_cons]
      have hnot : store.any (fun o => o.id == e.id) = false := by
        rw [List.any_eq_false]
        intro o ho
        simp only [beq_iff_eq]
        exact hdisj e (List.mem_cons_self e es) o ho
      show es.foldl upsertOne (upsertOne store e) = _
      rw [upsertOne, if_neg (by simp [hnot])]
      rw [ih (store ++ [e]) ?_ ?_]
      · simp
      · intro en hen o ho
        rcases List.mem_append.mp ho with ho | ho
        · exact hdisj en (List.mem_cons_of_mem _ hen) o ho
        · simp only [List.mem_singleton] at ho
          rw [ho]
          have hni : e.id ∉ es.map StoreEntry.id := (List.nodup_cons.mp hnd).1
          intro hcon
          exact hni (hcon ▸ List.mem_map_of_mem _ hen)
      · exact (List.nodup_cons.mp hnd).2

/-- Running `index_chunks` with `replace` on a nonempty single-community chunk
set with fresh ids relative to the other communities, deletes that
community and appends the new entries. -/
theorem index_chunks_replace (store : List StoreEntry) (chunks : List Chunk) (comm : String)
    (hne : chunks ≠ []) (hcomm : ∀ c ∈ chunks, c.community = comm)
    (hids : (chunks.map Chunk.id).Nodup)
    (hstore : ∀ e ∈ store, e.community ≠ comm → ∀ c ∈ chunks, e.id ≠ c.id) :
    index_chunks store chunks true
      = store.filter (fun e => e.community != comm) ++ chunks.map toEntry := by
  unfold index_chunks
  simp only [ite_true]
  rw [foldlDeleteEq]
  have hfilter : store.filter (fun e => !(((chunks.map Chunk.community).dedup).contains e.community))
      = store.filter (fun e => e.community != comm) := by
    apply List.filter_congr
    intro e _
    by_cases hec : e.community = comm
    · have hm : e.community ∈ (chunks.map Chunk.community).dedup := by
        rw [List.mem_dedup, hec]
        obtain ⟨c, hc⟩ := List.exists_mem_of_ne_nil chunks hne
        exact (hcomm c hc) ▸ List.mem_map_of_mem Chunk.community hc
      have hcont : ((chunks.map Chunk.community).dedup).contains e.community = true :=
        List.elem_iff.mpr hm
      rw [hcont]
      simp [hec]
    · have hm : e.community ∉ (chunks.map Chunk.community).dedup := by
        rw [List.mem_dedup]
        intro hcmem
        obtain ⟨c, hcm, hcc⟩ := List.mem_map.mp hcmem
        exact hec (hcc ▸ hcomm c hcm)
      have : ((chunks.map Chunk.community).dedup).contains e.community = false := by
        simpa using hm
      rw [this]
      simp [hec]
  rw [hfilter]
  rw [upsertAllNew (chunks.map toEntry) _ ?_ ?_]
  · intro en hen o ho
    rw [List.mem_filter] at ho
    obtain ⟨hos, hoc⟩ := ho
    obtain ⟨c, hc, rfl⟩ := List.mem_map.mp hen
    have hocc : o.community ≠ comm := by simpa using hoc
    exact hstore o hos hocc c hc
  · rw [List.map_map]
    exact hids

/-- C1: the claim quantifies over all nine section chunkers, including the
overview chunker; but a record with every subtree absent still yields the
overview chunk, so the chunker list does produce a chunk for it. -/
theorem c1_counterexample :
    (chunk_community ⟨"empty.json", emptyCommunityRecord⟩).map Chunk.sectionLabel
      = ["overview"] := by
  with_unfolding_all decide

/-- C1 (amended): each of the eight non-overview section chunkers returns
the absent marker when its underlying subtree(s) are absent or empty; the
overview chunker never does: it is always emitted, first. -/
theorem c1_absent_subtree_no_chunk :
    (∀ d s n, (d.safety.getD {}).isEmptyB = true → chunk_safety d s n = none)
    ∧ (∀ d s n, (d.housing.getD {}).isEmptyB = true → chunk_housing d s n = none)
    ∧ (∀ d s n, (d.service_requests_311.getD {}).isEmptyB = true → chunk_311 d s n = none)
    ∧ (∀ d s n, (d.schools.getD {}).isEmptyB = true → chunk_schools d s n = none)
    ∧ (∀ d s n, (d.transit.getD {}).isEmptyB = true → chunk_transit d s n = none)
    ∧ (∀ d s n, (d.demographics.getD {}).isEmptyB = true → chunk_demographics d s n = none)
    ∧ (∀ d s n, (d.business_development.getD {}).isEmptyB = true →
        (d.business_character.getD {}).isEmptyB = true → chunk_business d s n = none)
    ∧ (∀ d s n, (d.amenities.getD {}).isEmptyB = true → d.parks = [] → d.landmarks = [] →
        chunk_amenities d s n = none)
    ∧ (∀ f, ∃ rest, chunk_community f = chunk_hero f.data (effSlug f) (effName f) :: rest
        ∧ (chunk_hero f.data (effSlug f) (effName f)).sectionLabel = "overview") := by
  refine ⟨?_, ?_, ?_, ?_, ?_, ?_, ?_, ?_, ?_⟩
  · intro d s n h
    simp [chunk_safety, h]
  · intro d s n h
    simp [chunk_housing, h]
  · intro d s n h
    simp [chunk_311, h]
  · intro d s n h
    simp [chunk_schools, h]
  · intro d s n h
    simp [chunk_transit, h]
  · intro d s n h
    simp [chunk_demographics, h]
  · intro d s n h1 h2
    simp [chunk_business, h1, h2]
  · intro d s n h1 h2 h3
    simp [chunk_amenities, h1, h2, h3]
  · intro f
    obtain ⟨rest, hrest⟩ := chunk_community_head f
    exact ⟨rest, hrest, rfl⟩

/-- C1 witness: at the all-absent record, each of the eight guarded
chunkers returns the absent marker. -/
theorem c1_witness :
    chunk_safety emptyCommunityRecord "s" "N" = none
    ∧ chunk_housing emptyCommunityRecord "s" "N" = none
    ∧ chunk_311 emptyCommunityRecord "s" "N" = none
    ∧ chunk_schools emptyCommunityRecord "s" "N" = none
    ∧ chunk_transit emptyCommunityRecord "s" "N" = none
    ∧ chunk_demographics emptyCommunityRecord "s" "N" = none
    ∧ chunk_business emptyCommunityRecord "s" "N" = none
    ∧ chunk_amenities emptyCommunityRecord "s" "N" = none :=
  ⟨c1_absent_subtree_no_chunk.1 emptyCommunityRecord "s" "N" (by with_unfolding_all decide),
   c1_absent_subtree_no_chunk.2.1 emptyCommunityRecord "s" "N" (by with_unfolding_all decide),
   c1_absent_subtree_no_chunk.2.2.1 emptyCommunityRecord "s" "N" (by with_unfolding_all decide),
   c1_absent_subtree_no_chunk.2.2.2.1 emptyCommunityRecord "s" "N" (by with_unfolding_all decide),
   c1_absent_subtree_no_chunk.2.2.2.2.1 emptyCommunityRecord "s" "N" (by with_unfolding_all decide),
   c1_absent_subtree_no_chunk.2.2.2.2.2.1 emptyCommunityRecord "s" "N" (by with_unfolding_all decide),
   c1_absent_subtree_no_chunk.2.2.2.2.2.2.1 emptyCommunityRecord "s" "N"
     (by with_unfolding_all decide) (by with_unfolding_all decide),
   c1_absent_subtree_no_chunk.2.2.2.2.2.2.2.1 emptyCommunityRecord "s" "N"
     (by with_unfolding_all decide) rfl rfl⟩

/-- C2: the claim conditions the overview clause on the `safety` subtree,
but the clause is driven by `hero.safety_percentile`: a record with no
`safety` subtree and `hero.safety_percentile = 90` still gets the clause. -/
theorem c2_counterexample :
    recHeroSafetyPct.safety = none
      ∧ (chunk_hero recHeroSafetyPct "s" "Name").text
        = "Name community overview. Located in  sector, CREB district: . "
          ++ "Safety percentile: 90/100. "
      ∧ chunk_safety recHeroSafetyPct "s" "Name" = none := by
  with_unfolding_all decide

/-- C2 (amended): the overview omits the safety-percentile clause exactly
when `hero.safety_percentile` is absent, and an absent `safety` subtree
means no safety chunk. -/
theorem c2_safety_clause :
    (∀ d s n, (d.hero.getD {}).safety_percentile = none →
      (chunk_hero d s n).text = overviewTextNoSafetyClause d n)
    ∧ (∀ d s n, d.safety = none → chunk_safety d s n = none) := by
  constructor
  · intro d s n h
    simp only [chunk_hero, overviewTextNoSafetyClause, h]
  · intro d s n h
    have hempty : ({} : Safety).isEmptyB = true := by with_unfolding_all rfl
    simp [chunk_safety, h, hempty]

/-- C2 witness: at a record with absent hero and safety subtrees. -/
theorem c2_witness :
    (chunk_hero emptyCommunityRecord "s" "N").text
        = overviewTextNoSafetyClause emptyCommunityRecord "N"
      ∧ chunk_safety emptyCommunityRecord "s" "N" = none :=
  ⟨c2_safety_clause.1 emptyCommunityRecord "s" "N" rfl,
   c2_safety_clause.2 emptyCommunityRecord "s" "N" rfl⟩

/-- C3: the 311 chunk id is `x-311` while slug-dash-section would be
`x-311-service-requests`; the claimed id scheme fails for this section. -/
theorem c3_counterexample :
    (chunk_311 rec311Only "x" "X").map Chunk.id = some "x-311"
      ∧ (chunk_311 rec311Only "x" "X").map (fun c => c.community ++ "-" ++ c.sectionLabel)
        = some "x-311-service-requests"
      ∧ ("x-311" : String) ≠ "x-311-service-requests" := by
  with_unfolding_all decide

/-- C3 (amended): every chunk id is the community slug, a hyphen, and the
id suffix of the section (the section label itself for seven sections;
`311` and `business` abbreviate the two long labels); within one community
the ids are pairwise distinct, and across a corpus run they are pairwise
distinct whenever the processed files carry pairwise distinct effective
slugs. -/
theorem c3_chunk_ids :
    (∀ f c, c ∈ chunk_community f → c.id = c.community ++ "-" ++ sectionIdSuffix c.sectionLabel)
    ∧ (∀ f, ((chunk_community f).map Chunk.id).Nodup)
    ∧ (∀ dir, ((processedFiles dir).map effSlug).Nodup →
        ((chunk_all dir).map Chunk.id).Nodup) := by
  refine ⟨?_, chunk_community_ids_nodup, chunk_all_ids_nodup⟩
  intro f c h
  simp only [chunk_community] at h
  rw [List.reduceOption_mem_iff] at h
  simp only [List.mem_cons, List.not_mem_nil, or_false] at h
  rcases h with h|h|h|h|h|h|h|h|h
  · injection h with h
    subst h
    have hf := chunk_hero_fields f.data (effSlug f) (effName f)
    rw [hf.2.2.1, hf.1, hf.2.1]
    exact congrArg (fun z => effSlug f ++ "-" ++ z)
      (show ("overview" : String) = sectionIdSuffix "overview" by with_unfolding_all rfl)
  · have hf := chunk_safety_fields h.symm
    rw [hf.2.2.1, hf.1, hf.2.1]
    exact congrArg (fun z => effSlug f ++ "-" ++ z)
      (show ("safety" : String) = sectionIdSuffix "safety" by with_unfolding_all rfl)
  · have hf := chunk_housing_fields h.symm
    rw [hf.2.2.1, hf.1, hf.2.1]
    exact congrArg (fun z => effSlug f ++ "-" ++ z)
      (show ("housing" : String) = sectionIdSuffix "housing" by with_unfolding_all rfl)
  · have hf := chunk_311_fields h.symm
    rw [hf.2.2.1, hf.1, hf.2.1]
    exact congrArg (fun z => effSlug f ++ "-" ++ z)
      (show ("311" : String) = sectionIdSuffix "311-service-requests" by with_unfolding_all rfl)
  · have hf := chunk_schools_fields h.symm
    rw [hf.2.2.1, hf.1, hf.2.1]
    exact congrArg (fun z => effSlug f ++ "-" ++ z)
      (show ("schools" : String) = sectionIdSuffix "schools" by with_unfolding_all rfl)
  · have hf := chunk_transit_fields h.symm
    rw [hf.2.2.1, hf.1, hf.2.1]
    exact congrArg (fun z => effSlug f ++ "-" ++ z)
      (show ("transit" : String) = sectionIdSuffix "transit" by with_unfolding_all rfl)
  · have hf := chunk_demographics_fields h.symm
    rw [hf.2.2.1, hf.1, hf.2.1]
    exact congrArg (fun z => effSlug f ++ "-" ++ z)
      (show ("demographics" : String) = sectionIdSuffix "demographics" by with_unfolding_all rfl)
  · have hf := chunk_business_fields h.symm
    rw [hf.2.2.1, hf.1, hf.2.1]
    exact congrArg (fun z => effSlug f ++ "-" ++ z)
      (show ("business" : String) = sectionIdSuffix "business-development" by with_unfolding_all rfl)
  · have hf := chunk_amenities_fields h.symm
    rw [hf.2.2.1, hf.1, hf.2.1]
    exact congrArg (fun z => effSlug f ++ "-" ++ z)
      (show ("amenities" : String) = sectionIdSuffix "amenities" by with_unfolding_all rfl)

/-- C3 witness: a two-file corpus with distinct slugs has pairwise
distinct chunk ids. -/
theorem c3_witness :
    ((chunk_all [⟨"beltline.json", emptyCommunityRecord⟩,
                 ⟨"seton.json", emptyCommunityRecord⟩]).map Chunk.id).Nodup :=
  c3_chunk_ids.2.2
    [⟨"beltline.json", emptyCommunityRecord⟩, ⟨"seton.json", emptyCommunityRecord⟩]
    (by with_unfolding_all decide)

/-- C4: the housing benchmark walk does emit the four fixed keys in order
with a labeled price per present value, but the source never strips the
trailing `", "` (every other comma-joined list in the file is passed
through `rstrip(", ")`); the chunk text ends with the separator. -/
theorem c4_benchmark_not_trimmed :
    (chunk_housing recHousingBench "s" "N").map Chunk.text
      = some ("N housing data. Average assessed value: $500,000. Total properties: 1,000. "
          ++ "District () benchmark prices as of 2024-01: " ++ "Detached: $700,000, ")
      ∧ (chunk_housing recHousingBench "s" "N").map (fun c => pyEnds c.text ", ")
        = some true := by
  with_unfolding_all decide

/-- C5: the answer-generator adapter is a total function of the process
outcome: success returns trimmed stdout, a non-zero exit returns
`Error: ` with trimmed stderr, a missing binary and an expired
60-second timeout return their fixed messages. -/
theorem c5_ask_claude_outcomes :
    (∀ out err, ask_claude (.completed 0 out err) = pyStrip out)
    ∧ (∀ rc out err, rc ≠ 0 → ask_claude (.completed rc out err) = "Error: " ++ pyStrip err)
    ∧ ask_claude .fileNotFound = "Error: \x27claude\x27 command not found. Install Claude Code CLI."
    ∧ ask_claude .timedOut = "Error: Claude timed out after 60 seconds."
    ∧ claudeTimeoutSeconds = 60 := by
  refine ⟨?_, ?_, ?_, ?_, rfl⟩
  · intro out err
    simp [ask_claude]
  · intro rc out err h
    simp [ask_claude, h]
  · rfl
  · with_unfolding_all rfl

/-- C5 witness: a non-zero exit at a concrete outcome. -/
theorem c5_witness :
    ask_claude (.completed 1 "out" "boom") = "Error: " ++ pyStrip "boom" :=
  c5_ask_claude_outcomes.2.1 1 "out" "boom" (by decide)

/-- C6: the claim quantifies over every store state; a stored entry of a
different community that happens to carry the id of a new chunk is
overwritten by the upsert, so entries of other communities can change. -/
theorem c6_counterexample :
    ([otherEntry].filter (fun e => e.community != "x") = [otherEntry])
      ∧ ((index_chunks [otherEntry] [newXChunk] true).filter
          (fun e => e.community != "x") = []) := by
  with_unfolding_all decide

/-- C6 (amended): for every store and nonempty chunk set of a single
community whose ids are distinct and do not occur among entries of other
communities, indexing with `replace` leaves exactly the new chunk set as
the entries of that community and leaves all other communities unchanged. -/
theorem c6_replace_exact (store : List StoreEntry) (chunks : List Chunk) (comm : String)
    (hne : chunks ≠ []) (hcomm : ∀ c ∈ chunks, c.community = comm)
    (hids : (chunks.map Chunk.id).Nodup)
    (hstore : ∀ e ∈ store, e.community ≠ comm → ∀ c ∈ chunks, e.id ≠ c.id) :
    ((index_chunks store chunks true).filter (fun e => e.community == comm)
        = chunks.map toEntry)
    ∧ ((index_chunks store chunks true).filter (fun e => e.community != comm)
        = store.filter (fun e => e.community != comm)) := by
  rw [index_chunks_replace store chunks comm hne hcomm hids hstore]
  rw [List.filter_append, List.filter_append]
  constructor
  · have h1 : (store.filter (fun e => e.community != comm)).filter
        (fun e => e.community == comm) = [] := by
      rw [List.filter_eq_nil_iff]
      intro e he
      rw [List.mem_filter] at he
      simpa using he.2
    have h2 : (chunks.map toEntry).filter (fun e => e.community == comm)
        = chunks.map toEntry := by
      rw [List.filter_eq_self]
      intro e he
      obtain ⟨c, hc, rfl⟩ := List.mem_map.mp he
      simpa [toEntry] using hcomm c hc
    rw [h1, h2, List.nil_append]
  · have h1 : (store.filter (fun e => e.community != comm)).filter
        (fun e => e.community != comm) = store.filter (fun e => e.community != comm) := by
      rw [List.filter_eq_self]
      intro e he
      exact (List.mem_filter.mp he).2
    have h2 : (chunks.map toEntry).filter (fun e => e.community != comm) = [] := by
      rw [List.filter_eq_nil_iff]
      intro e he
      obtain ⟨c, hc, rfl⟩ := List.mem_map.mp he
      simpa [toEntry] using hcomm c hc
    rw [h1, h2, List.append_nil]

/-- C6 witness: replacing the beltline chunks in a two-community store. -/
theorem c6_witness :
    ((index_chunks c6wStore c6wChunks true).filter (fun e => e.community == "beltline")
        = c6wChunks.map toEntry)
    ∧ ((index_chunks c6wStore c6wChunks true).filter (fun e => e.community != "beltline")
        = c6wStore.filter (fun e => e.community != "beltline")) :=
  c6_replace_exact c6wStore c6wChunks "beltline"
    (by with_unfolding_all decide) (by with_unfolding_all decide)
    (by with_unfolding_all decide) (by with_unfolding_all decide)

/-- C7: the corpus chunker processes exactly the eligible `.json` files --
those whose stem does not start with an underscore -- in sorted filename
order, concatenating each community chunker output; a directory of
`_template.json` and `beltline.json` yields chunks only for `beltline`. -/
theorem c7_corpus_chunking :
    (∀ dir, chunk_all dir = (processedFiles dir).flatMap chunk_community)
    ∧ (chunk_all [⟨"_template.json", emptyCommunityRecord⟩,
                  ⟨"beltline.json", emptyCommunityRecord⟩]).map Chunk.community
      = ["beltline"] := by
  refine ⟨chunk_all_eq, ?_⟩
  with_unfolding_all decide

/-- C8: `format_pct` maps `None` to `N/A`, renders one decimal with a `%`
suffix, gives every value `>= 0` an explicit `+` prefix and every
negative value its natural `-` sign; `5.2`, `-3.1` and `None` render as
claimed. -/
theorem c8_format_pct :
    format_pct none = "N/A"
    ∧ format_pct (some (26/5)) = "+5.2%"
    ∧ format_pct (some (-31/10)) = "-3.1%"
    ∧ (∀ v : Rat, 0 ≤ v → ∃ s, format_pct (some v) = "+" ++ s)
    ∧ (∀ v : Rat, v < 0 → ∃ s, format_pct (some v) = "-" ++ s)
    ∧ (∀ v : Rat, ∃ s, format_pct (some v) = s ++ "%") := by
  refine ⟨by with_unfolding_all decide, by with_unfolding_all decide,
    by with_unfolding_all decide, ?_, ?_, ?_⟩
  · intro v hv
    simp only [format_pct]
    rw [if_pos hv]
    exact ⟨fmtFixed1 v ++ "%", strAppendAssoc "+" (fmtFixed1 v) "%"⟩
  · intro v hv
    simp only [format_pct, fmtFixed1]
    rw [if_neg (not_le.mpr hv), if_pos hv]
    exact ⟨_, strAppendAssoc "-" _ "%"⟩
  · intro v
    simp only [format_pct]
    by_cases hv : 0 ≤ v
    · rw [if_pos hv]
      exact ⟨_, rfl⟩
    · rw [if_neg hv]
      exact ⟨_, rfl⟩

/-- C8 witness: the sign branches at concrete inputs. -/
theorem c8_witness :
    (∃ s, format_pct (some 1) = "+" ++ s) ∧ (∃ s, format_pct (some (-1)) = "-" ++ s) :=
  ⟨c8_format_pct.2.2.2.1 1 (by norm_num), c8_format_pct.2.2.2.2.1 (-1) (by norm_num)⟩

/-- C9: `format_currency` maps `None` to `N/A` and otherwise rounds to
the nearest whole unit, prefixes the currency symbol and groups thousands
with commas, with no decimal places; `1234567` renders as `$1,234,567`. -/
theorem c9_format_currency :
    format_currency none = "N/A"
    ∧ format_currency (some 1234567) = "$1,234,567"
    ∧ format_currency (some (7/5)) = "$1"
    ∧ format_currency (some (8/5)) = "$2"
    ∧ format_currency (some (9999996/10)) = "$1,000,000"
    ∧ (∀ v : Rat, ∃ s, format_currency (some v) = "$" ++ s) := by
  refine ⟨by with_unfolding_all decide, by with_unfolding_all decide,
    by with_unfolding_all decide, by with_unfolding_all decide,
    by with_unfolding_all decide, ?_⟩
  intro v
  simp only [format_currency]
  exact ⟨_, strAppendAssoc "$" _ _⟩

/-- C10: a record without a `slug` key takes the file stem as its slug --
every emitted chunk is labeled with the stem -- and every record without a
`name` key, whether or not it declares a slug, uses the uppercased
effective slug as the display name that opens every chunk text; chunking
proceeds normally. -/
theorem c10_slug_name_defaults :
    (∀ path rec, rec.slug = none →
      ∀ c ∈ chunk_community ⟨path, rec⟩, c.community = pathStem path)
    ∧ (∀ path rec, rec.name = none →
      ∀ c ∈ chunk_community ⟨path, rec⟩,
        hasPre (pyUpper (effSlug ⟨path, rec⟩)) c.text) := by
  constructor
  · intro path rec h c hc
    have hcomm := (mem_chunk_community hc).1
    simpa [effSlug, h] using hcomm
  · intro path rec hn c hc
    have htext := (mem_chunk_community hc).2.2
    simpa [effName, hn] using htext

/-- C10 witness: an empty record in `beltline.json` yields the overview
chunk labeled with the stem `beltline`, and a record declaring slug
`sunalta` but no name yields a chunk text starting with `SUNALTA`. -/
theorem c10_witness :
    ((chunk_hero emptyCommunityRecord "beltline" "BELTLINE").community = pathStem "beltline.json")
    ∧ hasPre (pyUpper (effSlug ⟨"beltline.json", recSlugOnly⟩))
        (chunk_hero recSlugOnly "sunalta" "SUNALTA").text :=
  ⟨c10_slug_name_defaults.1 "beltline.json" emptyCommunityRecord rfl
      (chunk_hero emptyCommunityRecord "beltline" "BELTLINE") (by with_unfolding_all decide),
   c10_slug_name_defaults.2 "beltline.json" recSlugOnly rfl
      (chunk_hero recSlugOnly "sunalta" "SUNALTA") (by with_unfolding_all decide)⟩
